import Mathlib

/-!
A shallow embedding of the selfhosted `ProjectService`
(`src/apps/selfhosted/src/project/project.service.ts`) of Borfak/swetrix-api,
together with theorems checking the natural-language specification against it.

JavaScript values that flow through the loosely-typed parts of the service
(`formatToClickhouse` / `formatFromClickhouse` take `any`) are modelled by the
inductive type `JVal`; numbers are restricted to the naturals (the service only
ever produces 0/1 and `NaN` on these fields) with `JVal.vNaN` standing for the
IEEE NaN produced by `Number(...)` on non-numeric input.  Stateful operations
(Redis, ClickHouse) are modelled by explicit state passing.  Errors are the
NestJS exception classes the service throws, modelled by `HttpException`.
-/

/-- The NestJS exception classes thrown by `project.service.ts`, each carrying
its message string. -/
inductive HttpException where
  | BadRequestException (msg : String)
  | ForbiddenException (msg : String)
  | UnprocessableEntityException (msg : String)
  | InternalServerErrorException (msg : String)
  | ConflictException (msg : String)
deriving DecidableEq, Repr

deriving instance DecidableEq for Except

set_option maxRecDepth 100000

/-- `true` exactly on the `ConflictException` variant. -/
def HttpException.isConflict : HttpException → Bool
  | .ConflictException _ => true
  | _ => false

/-- A JavaScript value as it appears on the dynamically-typed fields of a
project object: `null`, an absent key (`undefined`), a boolean, a (natural)
number, `NaN`, a string, or an array of strings. -/
inductive JVal where
  | vNull
  | vAbsent
  | vBool (b : Bool)
  | vNum (n : Nat)
  | vNaN
  | vStr (s : String)
  | vList (xs : List String)
deriving DecidableEq, Repr

/-- A loosely-typed project object (`any` in the source): the fields the
translators touch (`active`, `public`, `origins`, `ipBlacklist`) plus the
pass-through fields `id` and `name`, each holding an arbitrary `JVal`.
The object spread `{ ...project }` in the source copies all fields. -/
structure ProjObj where
  id : JVal
  name : JVal
  active : JVal
  public : JVal
  origins : JVal
  ipBlacklist : JVal
deriving DecidableEq, Repr

/- ### Character-level join / split on a separator

`_join(xs, ',')` and `_split(s, ',')` from lodash delegate to JavaScript's
`Array.prototype.join` and `String.prototype.split`; for a single-character
separator these are modelled below on `List Char`.  Note `''.split(',')`
is `['']`, which `splitCharAux` reproduces. -/

def splitCharAux (sep : Char) : List Char → List Char → List (List Char)
  | [], acc => [acc]
  | c :: cs, acc =>
    if c = sep then acc :: splitCharAux sep cs []
    else splitCharAux sep cs (acc ++ [c])

/-- JavaScript `s.split(sep)` for a one-character separator. -/
def splitChar (sep : Char) (cs : List Char) : List (List Char) :=
  splitCharAux sep cs []

/-- JavaScript `xs.join(',')` at the character level. -/
def joinCommaChars : List (List Char) → List Char
  | [] => []
  | [x] => x
  | x :: y :: ys => x ++ ',' :: joinCommaChars (y :: ys)

/-- `_join(xs, ',')` on a list of strings (lodash `join` = `Array.prototype.join`). -/
def joinComma (xs : List String) : String :=
  String.mk (joinCommaChars (xs.map String.data))

/-- `_split(s, ',')` on a string (lodash `split` = `String.prototype.split`). -/
def splitComma (s : String) : List String :=
  (splitChar ',' s.data).map String.mk

/-- `Array.prototype.join.call(v, ',')` as lodash `_join` invokes it on an
arbitrary value: arrays join their elements; `null`/`undefined` give `''`;
non-array-likes (numbers, booleans, `NaN`) have no `length` and give `''`. -/
def lodashJoin : JVal → String
  | .vList xs => joinComma xs
  | _ => ""

/-- lodash `toString`, as applied by `_split` to its argument before
splitting: `null`/`undefined` become `''`, arrays join with `','`,
primitives print. -/
def lodashToString : JVal → String
  | .vNull => ""
  | .vAbsent => ""
  | .vBool b => if b then "true" else "false"
  | .vNum n => toString n
  | .vNaN => "NaN"
  | .vStr s => s
  | .vList xs => joinComma xs

/-- `_split(v, ',')` on an arbitrary value. -/
def lodashSplit (v : JVal) : List String :=
  splitComma (lodashToString v)

/-- `_isNull(v)`: `true` only for `null` (not for `undefined`). -/
def lodashIsNull : JVal → Bool
  | .vNull => true
  | _ => false

/-- `_isString(v)`. -/
def lodashIsString : JVal → Bool
  | .vStr _ => true
  | _ => false

/-- JavaScript `Number(v)` on the modelled value domain.  Booleans map to
0/1, `null` to 0, `undefined` to `NaN`, numbers to themselves; a string is
trimmed and parsed as a decimal natural (`''` gives 0, anything else
non-numeric gives `NaN`; the model is restricted to naturals); an array is
first converted to its joined string form. -/
def jsNumberOfString (s : String) : JVal :=
  if s.trim = "" then .vNum 0
  else match s.trim.toNat? with
    | some n => .vNum n
    | none => .vNaN

def jsNumber : JVal → JVal
  | .vBool b => .vNum (if b then 1 else 0)
  | .vNull => .vNum 0
  | .vAbsent => .vNaN
  | .vNum n => .vNum n
  | .vNaN => .vNaN
  | .vStr s => jsNumberOfString s
  | .vList xs => jsNumberOfString (joinComma xs)

/-- JavaScript `Boolean(v)` on the modelled value domain. -/
def jsBoolean : JVal → Bool
  | .vBool b => b
  | .vNull => false
  | .vAbsent => false
  | .vNum n => n ≠ 0
  | .vNaN => false
  | .vStr s => s ≠ ""
  | .vList _ => true

/-- The block `if (!_isNull(v)) v = _isString(v) ? v : _join(v, ',')` that
`formatToClickhouse` applies to each of `origins` and `ipBlacklist`. -/
def joinListField (v : JVal) : JVal :=
  if lodashIsNull v then v
  else if lodashIsString v then v
  else .vStr (lodashJoin v)

/-- The block `v = _isNull(v) ? [] : _split(v, ',')` that
`formatFromClickhouse` applies to each of `origins` and `ipBlacklist`. -/
def splitListField (v : JVal) : JVal :=
  if lodashIsNull v then .vList []
  else .vList (lodashSplit v)

/-- `formatToClickhouse` (project.service.ts:127-145): coerces `active` and
`public` with `Number(...)`; joins `origins` / `ipBlacklist` with `','` when
they are not `null` and not already strings; all other fields pass through
the object spread unchanged. -/
def formatToClickhouse (project : ProjObj) : ProjObj :=
  { project with
    active := jsNumber project.active
    public := jsNumber project.public
    origins := joinListField project.origins
    ipBlacklist := joinListField project.ipBlacklist }

/-- `formatFromClickhouse` (project.service.ts:147-161): coerces `active` and
`public` with `Boolean(...)`; maps a `null` list field to `[]` and any other
value to `_split(v, ',')`; all other fields pass through unchanged. -/
def formatFromClickhouse (project : ProjObj) : ProjObj :=
  { project with
    active := .vBool (jsBoolean project.active)
    public := .vBool (jsBoolean project.public)
    origins := splitListField project.origins
    ipBlacklist := splitListField project.ipBlacklist }

/-- A value is "project shaped" when `active`/`public` are booleans and
`origins`/`ipBlacklist` are lists, i.e. it has the shape of the in-memory
`Project` entity. -/
def ProjObj.isProjectShaped (p : ProjObj) : Bool :=
  (match p.active with | .vBool _ => true | _ => false) &&
  (match p.public with | .vBool _ => true | _ => false) &&
  (match p.origins with | .vList _ => true | _ => false) &&
  (match p.ipBlacklist with | .vList _ => true | _ => false)

/- ### The typed `Project` entity -/

/-- The in-memory `Project` entity (`entity/project.entity.ts`): booleans for
`active`/`public`, string lists for `origins`/`ipBlacklist`. -/
structure Project where
  id : String
  name : String
  active : Bool
  public : Bool
  origins : List String
  ipBlacklist : List String
deriving DecidableEq, Repr

/-- JavaScript truthiness of a `string | null` value: `null` and the empty
string are falsy, every other string is truthy. -/
def optStrTruthy : Option String → Bool
  | none => false
  | some s => s != ""

/-- `allowedToView` (project.service.ts:81-87): returns (with `null`) when
`project.public || uid` is truthy, otherwise throws a `ForbiddenException`.
Pure: it only inspects its arguments. -/
def allowedToView (project : Project) (uid : Option String) : Except HttpException Unit :=
  if project.public || optStrTruthy uid then .ok ()
  else .error (.ForbiddenException "You are not allowed to view this project")

/-- `isPIDUnique` (project.service.ts:89-91): `!_find(projects, ({ id }) =>
id === pid)`.  The existing projects are untyped objects, so `id` is an
arbitrary `JVal`; strict equality `id === pid` against the string `pid`
holds exactly for the string value `pid`. -/
def isPIDUnique (projects : List ProjObj) (pid : String) : Bool :=
  !(projects.find? (fun p => p.id == JVal.vStr pid)).isSome

/-- `checkIfIDUnique` (project.service.ts:93-99): throws a
`BadRequestException` when `isPIDUnique` is false, returns otherwise. -/
def checkIfIDUnique (projects : List ProjObj) (pid : String) : Except HttpException Unit :=
  if !isPIDUnique projects pid then
    .error (.BadRequestException "Selected project ID is already in use")
  else .ok ()

/- ### Validator -/

/-- JavaScript whitespace as trimmed by lodash `_trim`. -/
def isJsSpace (c : Char) : Bool :=
  c == ' ' || c == '\t' || c == '\n' || c == '\r'

/-- lodash `_trim(s)`: strip whitespace from both ends. -/
def lodashTrim (s : String) : String :=
  String.mk (((s.data.dropWhile isJsSpace).reverse.dropWhile isJsSpace).reverse)

/-- Modelled from the spec: `isValidPID` lives in `common/constants`, which is
not under `src/`.  Per the spec a well-formed project identifier has exactly
12 characters drawn from the 62-symbol alphanumeric alphabet `0-9A-Za-z`. -/
def isValidPID (pid : String) : Bool :=
  pid.length == 12 && pid.data.all (fun c => c.isAlphanum)

/-- Modelled from the spec: `ORIGINS_REGEX` lives in `common/constants`,
which is not under `src/`.  Per the spec it is a permissive host/origin
pattern: nonempty text built from alphanumerics, dots, dashes, wildcard
stars and a port separator. -/
def ORIGINS_REGEX_test (s : String) : Bool :=
  !s.data.isEmpty &&
    s.data.all (fun c => c.isAlphanum || c == '.' || c == '-' || c == '*' || c == ':')

/-- The numeric value of a list of decimal digit characters. -/
def natOfDigits (ds : List Char) : Nat :=
  ds.foldl (fun a c => a * 10 + (c.toNat - 48)) 0

/-- A well-formed IPv4 group: 1-3 decimal digits, value at most 255, no
leading zero. -/
def ipv4GroupOk (g : List Char) : Bool :=
  match g with
  | [] => false
  | c :: rest =>
    (c :: rest).all Char.isDigit && (rest.isEmpty || c != '0') &&
      g.length ≤ 3 && natOfDigits g ≤ 255

/-- Models Node's `net.isIP` (an external library): 4 for a well-formed
dotted-quad IPv4 address, 0 otherwise.  IPv6 recognition is not modelled
(no claim exercises it); IPv6 inputs yield 0. -/
def netIsIP (s : String) : Nat :=
  match splitChar '.' s.data with
  | [a, b, c, d] =>
    if ipv4GroupOk a && ipv4GroupOk b && ipv4GroupOk c && ipv4GroupOk d then 4 else 0
  | _ => 0

/-- Modelled from the spec: `IP_REGEX` lives in `common/constants`, which is
not under `src/`.  Per the spec it is a permissive textual IP-range (CIDR)
pattern: a dotted quad of 1-3-digit groups, a slash and a 1-2-digit prefix
length. -/
def IP_REGEX_test (s : String) : Bool :=
  match splitChar '/' s.data with
  | [addr, mask] =>
    (match splitChar '.' addr with
     | [a, b, c, d] =>
       [a, b, c, d].all (fun g => !g.isEmpty && g.length ≤ 3 && g.all Char.isDigit)
     | _ => false) &&
      (!mask.isEmpty && mask.length ≤ 2 && mask.all Char.isDigit)
  | _ => false

/-- The `ProjectDTO` shape validated by `validateProject`. -/
structure ProjectDTO where
  id : String
  name : String
  origins : List String
  ipBlacklist : List String
deriving DecidableEq, Repr

/-- The per-entry test of the `origins` loop (project.service.ts:184-188):
an entry is bad when its trimmed form fails `ORIGINS_REGEX`. -/
def isBadOrigin (host : String) : Bool :=
  !ORIGINS_REGEX_test (lodashTrim host)

/-- The per-entry test of the `ipBlacklist` loop (project.service.ts:190-194):
an entry is bad when its trimmed form neither passes `net.isIP` nor matches
`IP_REGEX`. -/
def isBadIp (ip : String) : Bool :=
  netIsIP (lodashTrim ip) == 0 && !IP_REGEX_test (lodashTrim ip)

/-- `validateProject` (project.service.ts:163-195): name-length check; in
creating mode all further checks are skipped; then identifier syntax, the
300-character joined-length bounds, and the per-entry origin and IP loops,
each throwing on the first bad entry in list order. -/
def validateProject (projectDTO : ProjectDTO) (creatingProject : Bool := false) :
    Except HttpException Unit :=
  if projectDTO.name.length > 50 then
    .error (.UnprocessableEntityException "The project name is too long")
  else if creatingProject then .ok ()
  else if !isValidPID projectDTO.id then
    .error (.UnprocessableEntityException "The provided Project ID (pid) is incorrect")
  else if (joinComma projectDTO.origins).length > 300 then
    .error (.UnprocessableEntityException
      "The list of allowed origins has to be smaller than 300 symbols")
  else if (joinComma projectDTO.ipBlacklist).length > 300 then
    .error (.UnprocessableEntityException
      "The list of allowed blacklisted IP addresses must be less than 300 characters.")
  else
    match projectDTO.origins.find? isBadOrigin with
    | some host => .error (.ConflictException ("Host " ++ host ++ " is not correct"))
    | none =>
      match projectDTO.ipBlacklist.find? isBadIp with
      | some ip => .error (.ConflictException ("IP address " ++ ip ++ " is not correct"))
      | none => .ok ()

/- ### Cache-through repository

Redis is modelled as an association list of key / value / time-to-live
entries; the ClickHouse project table as an association list from identifier
to storage-shaped row.  `JSON.stringify` / `JSON.parse` are modelled by an
explicit injective encoding of project objects into strings together with
its partial inverse: a cached string either decodes to a project object or
fails to parse, matching the two outcomes the source distinguishes. -/

structure RedisEntry where
  key : String
  value : String
  ttl : Nat
deriving DecidableEq, Repr

/-- `redis.get(key)`. -/
def redisGet (cache : List RedisEntry) (key : String) : Option String :=
  (cache.find? (fun e => e.key == key)).map (fun e => e.value)

/-- `redis.set(key, value, 'EX', ttl)`: a single atomic SET-with-expiry. -/
def redisSet (cache : List RedisEntry) (key value : String) (ttl : Nat) :
    List RedisEntry :=
  ⟨key, value, ttl⟩ :: cache.filter (fun e => e.key != key)

/-- lodash `_isEmpty` on a `string | null` value: `null` and `''` are empty. -/
def lodashIsEmptyStrOpt : Option String → Bool
  | none => true
  | some s => s == ""

/-- Modelled from the spec: `getRedisProjectKey` lives in `common/constants`,
which is not under `src/`.  Per the spec the cache key is a fixed namespace
prefixed to the project identifier. -/
def getRedisProjectKey (pid : String) : String :=
  "pid_" ++ pid

/-- Modelled from the spec: `redisProjectCacheTimeout` lives in
`common/constants`, which is not under `src/`.  Per the spec it is a fixed
process-wide expiry in seconds; its numeric value is irrelevant to the
claims. -/
def redisProjectCacheTimeout : Nat := 1800

/-- Modelled from the spec: `getProjectsClickhouse` lives in `common/utils`,
which is not under `src/`.  Per the spec it queries the durable store for
the project row by identifier; it yields the row when one exists and an
empty (absent) result otherwise. -/
def getProjectsClickhouse (store : List (String × ProjObj)) (pid : String) :
    Option ProjObj :=
  (store.find? (fun r => r.fst == pid)).map (fun r => r.snd)

/-- The JavaScript `undefined` an absent fetch result stands for, seen as an
object: spreading it (`{ ...undefined }`) gives an object with no keys, so
every field is absent. -/
def jsUndefinedObj : ProjObj :=
  ⟨.vAbsent, .vAbsent, .vAbsent, .vAbsent, .vAbsent, .vAbsent⟩

/-- lodash `_isEmpty` on an object: true iff it has no own enumerable keys.
In the fixed-field model a key is present exactly when its value is not
`vAbsent`. -/
def lodashIsEmptyObj (p : ProjObj) : Bool :=
  p.id == .vAbsent && p.name == .vAbsent && p.active == .vAbsent &&
    p.public == .vAbsent && p.origins == .vAbsent && p.ipBlacklist == .vAbsent

/- #### JSON codec -/

def encNat (n : Nat) : List Char := (toString n).data

def encStr (s : String) : List Char :=
  encNat s.length ++ ':' :: s.data

def encJVal : JVal → List Char
  | .vNull => ['N']
  | .vAbsent => ['U']
  | .vNaN => ['Q']
  | .vBool true => ['T']
  | .vBool false => ['F']
  | .vNum n => 'D' :: (encNat n ++ [';'])
  | .vStr s => 'S' :: encStr s
  | .vList xs => 'L' :: (encNat xs.length ++ ':' :: (xs.map encStr).flatten)

/-- Models `JSON.stringify(project)`: an injective rendering of a project
object as a string. -/
def jsonStringify (p : ProjObj) : String :=
  String.mk (encJVal p.id ++ encJVal p.name ++ encJVal p.active ++
    encJVal p.public ++ encJVal p.origins ++ encJVal p.ipBlacklist)

def parseNat (cs : List Char) : Option (Nat × List Char) :=
  let ds := cs.takeWhile Char.isDigit
  if ds.isEmpty then none
  else some (natOfDigits ds, cs.dropWhile Char.isDigit)

def parseStrPayload (cs : List Char) : Option (String × List Char) :=
  match parseNat cs with
  | none => none
  | some (n, cs1) =>
    match cs1 with
    | ':' :: cs2 =>
      if n ≤ cs2.length then some (String.mk (cs2.take n), cs2.drop n) else none
    | _ => none

def parseStrList : Nat → List Char → Option (List String × List Char)
  | 0, cs => some ([], cs)
  | n + 1, cs =>
    match parseStrPayload cs with
    | none => none
    | some (s, cs1) =>
      match parseStrList n cs1 with
      | none => none
      | some (ss, cs2) => some (s :: ss, cs2)

def parseJVal : List Char → Option (JVal × List Char)
  | 'N' :: cs => some (.vNull, cs)
  | 'U' :: cs => some (.vAbsent, cs)
  | 'Q' :: cs => some (.vNaN, cs)
  | 'T' :: cs => some (.vBool true, cs)
  | 'F' :: cs => some (.vBool false, cs)
  | 'D' :: cs =>
    (match parseNat cs with
     | some (n, ';' :: cs1) => some (.vNum n, cs1)
     | _ => none)
  | 'S' :: cs =>
    (match parseStrPayload cs with
     | some (s, cs1) => some (.vStr s, cs1)
     | none => none)
  | 'L' :: cs =>
    (match parseNat cs with
     | some (n, ':' :: cs1) =>
       (match parseStrList n cs1 with
        | some (ss, cs2) => some (.vList ss, cs2)
        | none => none)
     | _ => none)
  | _ => none

/-- Models `JSON.parse` on a cached project string: succeeds exactly on
well-formed encodings, fails on any other text. -/
def jsonParse (s : String) : Option ProjObj :=
  match parseJVal s.data with
  | none => none
  | some (i, r1) =>
    match parseJVal r1 with
    | none => none
    | some (n, r2) =>
      match parseJVal r2 with
      | none => none
      | some (a, r3) =>
        match parseJVal r3 with
        | none => none
        | some (pb, r4) =>
          match parseJVal r4 with
          | none => none
          | some (o, r5) =>
            match parseJVal r5 with
            | some (ib, []) => some ⟨i, n, a, pb, o, ib⟩
            | _ => none

/-- The observable outcome of one `getRedisProject` call: the returned
project or thrown exception, the cache contents afterwards, and whether the
durable store was queried. -/
structure GetResult where
  result : Except HttpException ProjObj
  cache : List RedisEntry
  queriedStore : Bool
deriving Repr

/-- `getRedisProject` (project.service.ts:51-79): look up the cache under the
project key.  An empty/absent value is a miss: the store fetch (absent when
no row matches) is first translated with `formatFromClickhouse`, and only
the translated object is tested with `_isEmpty` — an empty object would be
a `BadRequestException`; otherwise the object is serialized and cached with
the fixed expiry and returned.  A non-empty cached value is parsed (a parse
failure is an `InternalServerErrorException`, never a fall through to the
store). -/
def getRedisProject (cache : List RedisEntry) (store : List (String × ProjObj))
    (pid : String) : GetResult :=
  let pidKey := getRedisProjectKey pid
  let cached := redisGet cache pidKey
  if lodashIsEmptyStrOpt cached then
    let fetched := (getProjectsClickhouse store pid).getD jsUndefinedObj
    let project := formatFromClickhouse fetched
    if lodashIsEmptyObj project then
      ⟨.error (.BadRequestException "The provided Project ID (pid) is incorrect"),
        cache, true⟩
    else
      ⟨.ok project,
        redisSet cache pidKey (jsonStringify project) redisProjectCacheTimeout, true⟩
  else
    match jsonParse (cached.getD "") with
    | none =>
      ⟨.error (.InternalServerErrorException "Error while processing project"),
        cache, false⟩
    | some project => ⟨.ok project, cache, false⟩

/- ### Range-delete coordinator -/

/-- A row of one of the three analytics tables, keyed by project identifier
and creation timestamp. -/
structure ChRow where
  pid : String
  created : String
deriving DecidableEq, Repr

structure ChTables where
  analytics : List ChRow
  customEV : List ChRow
  performance : List ChRow
deriving DecidableEq, Repr

/-- One parameterized ClickHouse command: literal query text plus the three
bound parameter values (the values never enter the text). -/
structure ChCommand where
  query : String
  paramPid : String
  paramFrom : String
  paramTo : String
deriving DecidableEq, Repr

def queryAnalytics : String :=
  "ALTER TABLE analytics DELETE WHERE pid = \x7bpid:FixedString(12)\x7d AND created BETWEEN \x7bfrom:String\x7d AND \x7bto:String\x7d"

def queryCustomEvents : String :=
  "ALTER TABLE customEV DELETE WHERE pid = \x7bpid:FixedString(12)\x7d AND created BETWEEN \x7bfrom:String\x7d AND \x7bto:String\x7d"

def queryPerformance : String :=
  "ALTER TABLE performance DELETE WHERE pid = \x7bpid:FixedString(12)\x7d AND created BETWEEN \x7bfrom:String\x7d AND \x7bto:String\x7d"

/-- The three commands `removeDataFromClickhouse` issues
(project.service.ts:101-124): one per table, identical parameter bindings. -/
def removeDataCommands (pid fromTs toTs : String) : List ChCommand :=
  [⟨queryAnalytics, pid, fromTs, toTs⟩,
   ⟨queryCustomEvents, pid, fromTs, toTs⟩,
   ⟨queryPerformance, pid, fromTs, toTs⟩]

/-- Byte-wise lexicographic order on strings, as ClickHouse compares String
values in `BETWEEN`. -/
def charListLe : List Char → List Char → Bool
  | [], _ => true
  | _ :: _, [] => false
  | a :: as, b :: bs => if a < b then true else if a = b then charListLe as bs else false

def strLe (a b : String) : Bool := charListLe a.data b.data

/-- The `WHERE pid = ... AND created BETWEEN ... AND ...` predicate of each
delete command, with the bound parameter values substituted. -/
def matchesDeleteScope (pid fromTs toTs : String) (r : ChRow) : Bool :=
  r.pid == pid && strLe fromTs r.created && strLe r.created toTs

/-- The effect of one table-scoped delete command on its table. -/
def runDelete (tbl : List ChRow) (pid fromTs toTs : String) : List ChRow :=
  tbl.filter (fun r => !matchesDeleteScope pid fromTs toTs r)

/-- The aggregate of `Promise.all` over the three command outcomes (`none` a
fulfilled command, `some e` a rejection with reason `e`): fulfilled only when
all three are, otherwise rejected with a single reason. -/
def promiseAllResult (rA rC rP : Option String) : Except String Unit :=
  match rA, rC, rP with
  | none, none, none => .ok ()
  | some e, _, _ => .error e
  | none, some e, _ => .error e
  | none, none, some e => .error e

/-- Outcome of one `removeDataFromClickhouse` call: the aggregate result and
the table contents afterwards. -/
structure RemoveResult where
  result : Except String Unit
  tables : ChTables
deriving Repr

/-- `removeDataFromClickhouse` (project.service.ts:101-125): the three
table-scoped deletes run concurrently under `Promise.all`; each command
either applies its delete (fulfilled) or leaves its table unchanged
(rejected), independently of its siblings — a rejection aggregates to a
single error but never rolls a completed sibling back.  The per-command
outcomes `rA`/`rC`/`rP` model the store's response to each command. -/
def removeDataFromClickhouse (st : ChTables) (pid fromTs toTs : String)
    (rA rC rP : Option String) : RemoveResult :=
  ⟨promiseAllResult rA rC rP,
   ⟨if rA.isNone then runDelete st.analytics pid fromTs toTs else st.analytics,
    if rC.isNone then runDelete st.customEV pid fromTs toTs else st.customEV,
    if rP.isNone then runDelete st.performance pid fromTs toTs else st.performance⟩⟩

/- ### Concrete inputs used by counterexamples and witnesses -/

/-- A valid project whose list fields are `null`. -/
def projNullLists : ProjObj :=
  ⟨.vStr "AB1234567890", .vStr "Null lists", .vBool true, .vBool false, .vNull, .vNull⟩

/-- A valid project whose list fields are present but empty. -/
def projEmptyLists : ProjObj :=
  ⟨.vStr "AB1234567890", .vStr "Empty lists", .vBool true, .vBool false,
    .vList [], .vList []⟩

/-- A valid project with nonempty, comma-free list fields. -/
def projW : ProjObj :=
  ⟨.vStr "AB1234567890", .vStr "My project", .vBool true, .vBool false,
    .vList ["example.com", "foo.org"], .vList ["10.0.0.1"]⟩

/-- A malformed storage row: `active` a string, `public` a number bigger than
one, `origins` a number, `ipBlacklist` a boolean. -/
def malformedRow : ProjObj :=
  ⟨.vStr "AB1234567890", .vStr "Broken", .vStr "yes", .vNum 7, .vNum 5, .vBool true⟩

/-- A private project (for the visibility counterexample). -/
def privateProject : Project :=
  ⟨"AB1234567890", "Private", true, false, [], []⟩

/-- An untyped existing project whose `id` is the string `"A"`. -/
def projIdA : ProjObj :=
  ⟨.vStr "A", .vStr "Existing", .vBool true, .vBool true, .vList [], .vList []⟩

/-- A storage-shaped row as the durable store returns it. -/
def storeRow : ProjObj :=
  ⟨.vStr "ABCDEFGHIJKL", .vStr "Stored", .vNum 1, .vNum 0,
    .vStr "a.com,b.com", .vNull⟩

def storeW : List (String × ProjObj) := [("ABCDEFGHIJKL", storeRow)]

/-- The object a missing store row is coerced into: `formatFromClickhouse`
of the all-absent object (`Boolean(undefined)` twice, `_split(undefined, ',')`
twice). -/
def coercedAbsentProject : ProjObj :=
  ⟨.vAbsent, .vAbsent, .vBool false, .vBool false, .vList [""], .vList [""]⟩

/-- A cache holding a well-formed serialized project under the project key. -/
def cacheHitW : List RedisEntry :=
  [⟨getRedisProjectKey "ABCDEFGHIJKL", jsonStringify (formatFromClickhouse storeRow),
    redisProjectCacheTimeout⟩]

/-- A cache holding undeserializable garbage under the project key. -/
def cacheCorruptW : List RedisEntry :=
  [⟨getRedisProjectKey "ABCDEFGHIJKL", "garbage", redisProjectCacheTimeout⟩]

/-- A 12-character identifier from the legal alphabet. -/
def pidW : String := "AB1234567890"

def dtoName50 : ProjectDTO :=
  ⟨pidW, String.mk (List.replicate 50 'a'), [], []⟩

def dtoName51 : ProjectDTO :=
  ⟨pidW, String.mk (List.replicate 51 'a'), [], []⟩

/-- 43 six-character origins: joined length 43 * 6 + 42 = 300. -/
def dtoOrigins300 : ProjectDTO :=
  ⟨pidW, "name", List.replicate 43 "aaaaaa", []⟩

/-- One seven-character origin and 42 six-character ones: joined length 301. -/
def dtoOrigins301 : ProjectDTO :=
  ⟨pidW, "name", "aaaaaaa" :: List.replicate 42 "aaaaaa", []⟩

/-- 5 + 29 valid IPs with joined length 5 * 7 + 29 * 8 + 33 = 300. -/
def dtoIp300 : ProjectDTO :=
  ⟨pidW, "name", [], List.replicate 5 "1.2.3.4" ++ List.replicate 29 "10.0.0.1"⟩

/-- 4 + 30 valid IPs with joined length 4 * 7 + 30 * 8 + 33 = 301. -/
def dtoIp301 : ProjectDTO :=
  ⟨pidW, "name", [], List.replicate 4 "1.2.3.4" ++ List.replicate 30 "10.0.0.1"⟩

/-- The DTO of the bad-IP scenario: `ipBlacklist: ["10.0.0.999"]`. -/
def dtoBadIp : ProjectDTO :=
  ⟨pidW, "name", [], ["10.0.0.999"]⟩

/- ### Join/split round-trip lemmas -/

theorem splitCharAux_no_sep (sep : Char) :
    ∀ (l acc : List Char), sep ∉ l → splitCharAux sep l acc = [acc ++ l] := by
  intro l
  induction l with
  | nil => intro acc _; simp [splitCharAux]
  | cons c cs ih =>
    intro acc h
    have hc : c ≠ sep := by
      intro hEq; exact h (hEq ▸ List.mem_cons_self c cs)
    have hcs : sep ∉ cs := fun hm => h (List.mem_cons_of_mem c hm)
    simp [splitCharAux, hc, ih (acc ++ [c]) hcs]

theorem splitCharAux_append_sep (sep : Char) :
    ∀ (l acc rest : List Char), sep ∉ l →
      splitCharAux sep (l ++ sep :: rest) acc =
        (acc ++ l) :: splitCharAux sep rest [] := by
  intro l
  induction l with
  | nil => intro acc rest _; simp [splitCharAux]
  | cons c cs ih =>
    intro acc rest h
    have hc : c ≠ sep := by
      intro hEq; exact h (hEq ▸ List.mem_cons_self c cs)
    have hcs : sep ∉ cs := fun hm => h (List.mem_cons_of_mem c hm)
    have hstep : splitCharAux sep ((c :: cs) ++ sep :: rest) acc =
        splitCharAux sep (cs ++ sep :: rest) (acc ++ [c]) := by
      simp [splitCharAux, hc]
    rw [hstep, ih (acc ++ [c]) rest hcs]
    simp

theorem splitChar_joinCommaChars :
    ∀ (ls : List (List Char)), ls ≠ [] → (∀ l ∈ ls, ',' ∉ l) →
      splitChar ',' (joinCommaChars ls) = ls := by
  intro ls
  induction ls with
  | nil => intro h _; exact absurd rfl h
  | cons x xs ih =>
    intro _ hcomma
    cases xs with
    | nil =>
      have hx : ',' ∉ x := hcomma x (List.mem_cons_self x [])
      simp only [joinCommaChars, splitChar]
      rw [splitCharAux_no_sep ',' x [] hx]
      simp
    | cons y ys =>
      have hx : ',' ∉ x := hcomma x (List.mem_cons_self x (y :: ys))
      have hrest : ∀ l ∈ y :: ys, ',' ∉ l := by
        intro l hl; exact hcomma l (List.mem_cons_of_mem x hl)
      simp only [joinCommaChars, splitChar]
      rw [splitCharAux_append_sep ',' x [] (joinCommaChars (y :: ys)) hx]
      have := ih (by simp) hrest
      simp only [splitChar] at this
      simp [this]

theorem string_mk_data (s : String) : String.mk s.data = s := by
  cases s; rfl

theorem splitComma_joinComma (xs : List String) (hne : xs ≠ [])
    (hc : ∀ s ∈ xs, ',' ∉ s.data) : splitComma (joinComma xs) = xs := by
  unfold splitComma joinComma
  rw [string_mk_data]
  rw [splitChar_joinCommaChars (xs.map String.data)
    (by simpa using hne)
    (by intro l hl
        rcases List.mem_map.mp hl with ⟨s, hs, rfl⟩
        exact hc s hs)]
  rw [List.map_map]
  have : (String.mk ∘ String.data) = id := by
    funext s; exact string_mk_data s
  rw [this, List.map_id]

/- ### Translator theorems (C1, C10, C8) -/

theorem jsNumber_jsNumberOfString (s : String) :
    jsNumber (jsNumberOfString s) = jsNumberOfString s := by
  unfold jsNumberOfString
  by_cases h : s.trim = ""
  · simp [h, jsNumber]
  · simp only [if_neg h]
    cases h2 : s.trim.toNat? <;> simp [jsNumber]

theorem jsNumber_idem (v : JVal) : jsNumber (jsNumber v) = jsNumber v := by
  cases v with
  | vBool b => cases b <;> rfl
  | vNull => rfl
  | vAbsent => rfl
  | vNum n => rfl
  | vNaN => rfl
  | vStr s => exact jsNumber_jsNumberOfString s
  | vList xs => exact jsNumber_jsNumberOfString (joinComma xs)

theorem joinListField_idem (v : JVal) :
    joinListField (joinListField v) = joinListField v := by
  cases v <;> simp [joinListField, lodashIsNull, lodashIsString]

/-- C1 (counterexample): the round-trip law fails as stated.  A project with
`null` list fields comes back with empty lists, and a project with empty
list fields comes back with the one-element list `[""]` — in neither case is
`formatFromClickhouse (formatToClickhouse p)` equal to `p`. -/
theorem format_roundtrip_counterexample :
    formatFromClickhouse (formatToClickhouse projNullLists) ≠ projNullLists ∧
    formatFromClickhouse (formatToClickhouse projEmptyLists) ≠ projEmptyLists := by
  decide

/-- C1 (amended): the round-trip law of the Format Translator holds for every
project whose `active`/`public` are booleans and whose `origins`/`ipBlacklist`
are nonempty lists of comma-free strings:
`formatFromClickhouse (formatToClickhouse p) = p`. -/
theorem format_roundtrip_nonempty (p : ProjObj) (a b : Bool) (xs ys : List String)
    (ha : p.active = .vBool a) (hb : p.public = .vBool b)
    (ho : p.origins = .vList xs) (hi : p.ipBlacklist = .vList ys)
    (hxne : xs ≠ []) (hyne : ys ≠ [])
    (hxc : ∀ s ∈ xs, ',' ∉ s.data) (hyc : ∀ s ∈ ys, ',' ∉ s.data) :
    formatFromClickhouse (formatToClickhouse p) = p := by
  cases p with
  | mk pid pname pactive ppublic porigins pipBlacklist =>
    dsimp only at ha hb ho hi
    subst ha hb ho hi
    cases a <;> cases b <;>
      simp [formatToClickhouse, formatFromClickhouse, jsNumber, joinListField,
        splitListField, lodashIsNull, lodashIsString, lodashJoin, lodashSplit,
        lodashToString, jsBoolean, splitComma_joinComma xs hxne hxc,
        splitComma_joinComma ys hyne hyc]

/-- C1 (witness): the round trip at a concrete project with nonempty
comma-free list fields. -/
theorem format_roundtrip_nonempty_witness :
    formatFromClickhouse (formatToClickhouse projW) = projW :=
  format_roundtrip_nonempty projW true false ["example.com", "foo.org"]
    ["10.0.0.1"] rfl rfl rfl rfl (by decide) (by decide) (by decide) (by decide)

/-- C10: `formatToClickhouse` is idempotent on every input object: a second
application leaves already-numeric `active`/`public` and already-joined
(string) `origins`/`ipBlacklist` unchanged. -/
theorem formatToClickhouse_idempotent (p : ProjObj) :
    formatToClickhouse (formatToClickhouse p) = formatToClickhouse p := by
  cases p with
  | mk i n a pb o ib => simp [formatToClickhouse, jsNumber_idem, joinListField_idem]

/-- C8 (counterexample): `formatFromClickhouse` signals no translation
failure on a malformed storage row; it silently coerces the row (here:
string `active`, out-of-range numeric `public`, numeric `origins`, boolean
`ipBlacklist`) into a project-shaped value. -/
theorem formatFromClickhouse_silently_coerces :
    formatFromClickhouse malformedRow =
      ⟨.vStr "AB1234567890", .vStr "Broken", .vBool true, .vBool true,
        .vList ["5"], .vList ["true"]⟩ := by
  decide

/-- C8 (amended): `formatFromClickhouse` is total and never signals any
failure: every storage row, however malformed, is coerced into a
project-shaped value (`Boolean(...)` on `active`/`public`, a string split
on `origins`/`ipBlacklist`). -/
theorem formatFromClickhouse_total_shape (row : ProjObj) :
    (formatFromClickhouse row).isProjectShaped = true := by
  cases row with
  | mk i n a pb o ib =>
    simp only [formatFromClickhouse, splitListField, ProjObj.isProjectShaped]
    cases o <;> cases ib <;> simp [lodashIsNull]

/- ### Visibility theorems (C2) -/

/-- C2 (counterexample): the claim fails for a non-null but empty viewer
identity.  `privateProject` is not public and `some ""` is a non-null viewer,
so the claim asserts success, yet `allowedToView` throws the forbidden
error: JavaScript tests `uid` for truthiness, and `''` is falsy. -/
theorem allowedToView_counterexample :
    allowedToView privateProject (some "") =
      .error (.ForbiddenException "You are not allowed to view this project") ∧
    (some "").isSome = true ∧ privateProject.public = false := by
  exact ⟨rfl, rfl, rfl⟩

/-- C2 (amended): `allowedToView` succeeds exactly when the project's
`public` field is true or the viewer identity is a non-null, nonempty
string; otherwise it throws the forbidden error.  It is a pure function of
its two arguments, so it has no side effects in either case. -/
theorem allowedToView_spec (project : Project) (uid : Option String) :
    (allowedToView project uid = .ok () ↔
      (project.public = true ∨ optStrTruthy uid = true)) ∧
    (allowedToView project uid = .ok () ∨
      allowedToView project uid =
        .error (.ForbiddenException "You are not allowed to view this project")) := by
  unfold allowedToView
  by_cases h : (project.public || optStrTruthy uid) = true
  · rw [if_pos h]
    simp only [Bool.or_eq_true] at h
    simp [h]
  · rw [if_neg h]
    simp only [Bool.or_eq_true] at h
    push_neg at h
    simp [h]

/- ### Identifier-uniqueness theorems (C3) -/

/-- C3 (counterexample): with one existing project whose `id` is `"A"`, the
candidate `"A"` is not unique, yet `checkIfIDUnique` raises a
`BadRequestException`, not a conflict error as the claim states. -/
theorem checkIfIDUnique_counterexample :
    isPIDUnique [projIdA] "A" = false ∧
    checkIfIDUnique [projIdA] "A" =
      .error (.BadRequestException "Selected project ID is already in use") ∧
    HttpException.isConflict
      (.BadRequestException "Selected project ID is already in use") = false := by
  exact ⟨rfl, rfl, rfl⟩

/-- C3 (amended): `isPIDUnique` returns true iff no existing project's `id`
equals the candidate, and `checkIfIDUnique` raises a bad-request error
exactly when `isPIDUnique` is false, succeeding silently otherwise. -/
theorem isPIDUnique_checkIfIDUnique_spec (projects : List ProjObj) (pid : String) :
    (isPIDUnique projects pid = true ↔ ∀ p ∈ projects, p.id ≠ JVal.vStr pid) ∧
    (checkIfIDUnique projects pid =
      .error (.BadRequestException "Selected project ID is already in use") ↔
      isPIDUnique projects pid = false) ∧
    (checkIfIDUnique projects pid = .ok () ↔ isPIDUnique projects pid = true) := by
  refine ⟨?_, ?_, ?_⟩
  · simp [isPIDUnique, List.find?_isSome]
  · unfold checkIfIDUnique
    cases h : isPIDUnique projects pid <;> simp [h]
  · unfold checkIfIDUnique
    cases h : isPIDUnique projects pid <;> simp [h]

/- ### Validator theorems (C6, C7) -/

theorem find?_append_first {α : Type} (p : α → Bool) (good : List α) (bad : α)
    (rest : List α) (hgood : ∀ x ∈ good, p x = false) (hbad : p bad = true) :
    (good ++ bad :: rest).find? p = some bad := by
  induction good with
  | nil =>
    simp only [List.nil_append]
    exact List.find?_cons_of_pos rest hbad
  | cons g gs ih =>
    simp only [List.cons_append]
    rw [List.find?_cons_of_neg _ (by simp [hgood g (List.mem_cons_self g gs)])]
    exact ih (fun x hx => hgood x (List.mem_cons_of_mem g hx))

/-- C6: validator boundaries.  A 50-character name passes and a 51-character
name fails with the size-violation error; with `creatingProject = false`, an
`origins` list whose comma-joined length is exactly 300 passes and one of
joined length 301 fails with the size-violation error, and likewise the
joined `ipBlacklist` is bounded at 300. -/
theorem validateProject_boundaries :
    validateProject dtoName50 true = .ok () ∧
    validateProject dtoName51 true =
      .error (.UnprocessableEntityException "The project name is too long") ∧
    validateProject dtoOrigins300 false = .ok () ∧
    validateProject dtoOrigins301 false =
      .error (.UnprocessableEntityException
        "The list of allowed origins has to be smaller than 300 symbols") ∧
    validateProject dtoIp300 false = .ok () ∧
    validateProject dtoIp301 false =
      .error (.UnprocessableEntityException
        "The list of allowed blacklisted IP addresses must be less than 300 characters.") := by
  refine ⟨rfl, rfl, rfl, rfl, rfl, rfl⟩

/-- C7: with `creatingProject = false` and every earlier check passing
(name length, identifier syntax, both joined-length bounds, all origins
well-formed), `validateProject` fails on the first `ipBlacklist` entry in
list order whose trimmed form neither passes the IP parser nor matches the
IP-range pattern, raising a `ConflictException` whose message names that
offending entry. -/
theorem validateProject_first_bad_ip (dto : ProjectDTO) (good : List String)
    (bad : String) (rest : List String)
    (hname : dto.name.length ≤ 50)
    (hid : isValidPID dto.id = true)
    (hoj : (joinComma dto.origins).length ≤ 300)
    (hij : (joinComma dto.ipBlacklist).length ≤ 300)
    (horig : ∀ h ∈ dto.origins, isBadOrigin h = false)
    (hsplit : dto.ipBlacklist = good ++ bad :: rest)
    (hgood : ∀ ip ∈ good, isBadIp ip = false)
    (hbad : isBadIp bad = true) :
    validateProject dto false =
      .error (.ConflictException ("IP address " ++ bad ++ " is not correct")) := by
  unfold validateProject
  rw [if_neg (by omega)]
  rw [if_neg (by simp)]
  rw [if_neg (by simp [hid])]
  rw [if_neg (by omega)]
  rw [if_neg (by omega)]
  have horigNone : dto.origins.find? isBadOrigin = none :=
    List.find?_eq_none.mpr (fun x hx => by simp [horig x hx])
  rw [horigNone, hsplit, find?_append_first isBadIp good bad rest hgood hbad]

/-- C7 (witness): validating `ipBlacklist: ["10.0.0.999"]` (all earlier
checks passing) fails with the conflict error naming `10.0.0.999`. -/
theorem validateProject_first_bad_ip_witness :
    validateProject dtoBadIp false =
      .error (.ConflictException ("IP address " ++ "10.0.0.999" ++ " is not correct")) :=
  validateProject_first_bad_ip dtoBadIp [] "10.0.0.999" []
    (by decide) (by decide) (by decide) (by decide)
    (by decide) rfl (by decide) (by decide)

/- ### Cache-through repository theorems (C4, C5) -/

/-- C4 (code bug): the not-found half of the cache-miss path is dead code.
The source tests `_isEmpty` on the result of `formatFromClickhouse`, which
unconditionally assigns `active`, `public`, `origins` and `ipBlacklist`, so
the translated object is never lodash-empty — for any fetch result at all —
and the `BadRequestException` guard can never fire.  Concretely, a cache
miss with no matching store row does not fail and does not leave the cache
untouched: it coerces the absent row into
`{active: false, public: false, origins: [''], ipBlacklist: ['']}`, caches
its serialized form under the project key with the fixed time-to-live, and
returns it.  The found-row half behaves as the claim states. -/
theorem getRedisProject_notfound_divergence :
    (∀ row : ProjObj, lodashIsEmptyObj (formatFromClickhouse row) = false) ∧
    getRedisProject [] [] "ABCDEFGHIJKL" =
      ⟨.ok coercedAbsentProject,
        redisSet [] (getRedisProjectKey "ABCDEFGHIJKL")
          (jsonStringify coercedAbsentProject) redisProjectCacheTimeout,
        true⟩ ∧
    getRedisProject [] storeW "ABCDEFGHIJKL" =
      ⟨.ok (formatFromClickhouse storeRow),
        redisSet [] (getRedisProjectKey "ABCDEFGHIJKL")
          (jsonStringify (formatFromClickhouse storeRow)) redisProjectCacheTimeout,
        true⟩ := by
  refine ⟨?_, rfl, rfl⟩
  intro row
  cases row with
  | mk i n a pb o ib => simp [formatFromClickhouse, lodashIsEmptyObj]

/-- C5: the cache-hit path of `getRedisProject`.  When the cache holds a
non-empty value under the project key: if the value deserializes, the
deserialized project is returned with no store query and no cache write; if
it cannot be deserialized, the call fails with the internal-processing error
and, again, does not fall through to query the durable store. -/
theorem getRedisProject_cache_hit (cache : List RedisEntry)
    (store : List (String × ProjObj)) (pid : String) (s : String)
    (hhit : redisGet cache (getRedisProjectKey pid) = some s)
    (hne : s ≠ "") :
    (∀ p, jsonParse s = some p →
      getRedisProject cache store pid = ⟨.ok p, cache, false⟩) ∧
    (jsonParse s = none →
      getRedisProject cache store pid =
        ⟨.error (.InternalServerErrorException "Error while processing project"),
          cache, false⟩) := by
  have hfalse : lodashIsEmptyStrOpt (redisGet cache (getRedisProjectKey pid)) = false := by
    rw [hhit]
    simpa [lodashIsEmptyStrOpt] using hne
  constructor
  · intro p hp
    unfold getRedisProject
    rw [if_neg (by simp [hfalse]), hhit]
    simp only [Option.getD_some]
    rw [hp]
  · intro hp
    unfold getRedisProject
    rw [if_neg (by simp [hfalse]), hhit]
    simp only [Option.getD_some]
    rw [hp]

/-- C5 (witness): a warm cache holding the serialized translated row is
served from the cache — same project back, cache untouched, store not
queried. -/
theorem getRedisProject_cache_hit_witness :
    getRedisProject cacheHitW storeW "ABCDEFGHIJKL" =
      ⟨.ok (formatFromClickhouse storeRow), cacheHitW, false⟩ :=
  (getRedisProject_cache_hit cacheHitW storeW "ABCDEFGHIJKL"
      (jsonStringify (formatFromClickhouse storeRow)) rfl (by decide)).1
    (formatFromClickhouse storeRow) (by decide)

/- ### Range-delete theorems (C9) -/

/-- C9: `removeDataFromClickhouse` issues exactly one parameterized delete
command per analytics table (raw events, custom events, performance), each
scoped to `pid = id AND created BETWEEN from AND to`; the three values
travel only as bound parameters — the query text is a constant, independent
of the arguments; the operation succeeds iff all three commands succeed; any
failure surfaces as a single aggregated error; and a failure never rolls
back a sibling delete that succeeded. -/
theorem removeDataFromClickhouse_spec (st : ChTables) (pid fromTs toTs : String)
    (rA rC rP : Option String) :
    ((removeDataCommands pid fromTs toTs).map ChCommand.query =
      [queryAnalytics, queryCustomEvents, queryPerformance]) ∧
    (∀ c ∈ removeDataCommands pid fromTs toTs,
      c.paramPid = pid ∧ c.paramFrom = fromTs ∧ c.paramTo = toTs) ∧
    (∀ pid2 fromTs2 toTs2 : String,
      (removeDataCommands pid fromTs toTs).map ChCommand.query =
        (removeDataCommands pid2 fromTs2 toTs2).map ChCommand.query) ∧
    ((removeDataFromClickhouse st pid fromTs toTs rA rC rP).result = .ok () ↔
      (rA = none ∧ rC = none ∧ rP = none)) ∧
    (¬(rA = none ∧ rC = none ∧ rP = none) →
      ∃ e, (removeDataFromClickhouse st pid fromTs toTs rA rC rP).result = .error e) ∧
    ((removeDataFromClickhouse st pid fromTs toTs rA rC rP).tables.analytics =
      if rA = none then runDelete st.analytics pid fromTs toTs else st.analytics) ∧
    ((removeDataFromClickhouse st pid fromTs toTs rA rC rP).tables.customEV =
      if rC = none then runDelete st.customEV pid fromTs toTs else st.customEV) ∧
    ((removeDataFromClickhouse st pid fromTs toTs rA rC rP).tables.performance =
      if rP = none then runDelete st.performance pid fromTs toTs else st.performance) := by
  refine ⟨rfl, by simp [removeDataCommands], fun pid2 f2 t2 => rfl, ?_, ?_, ?_, ?_, ?_⟩ <;>
    cases rA <;> cases rC <;> cases rP <;>
      simp [removeDataFromClickhouse, promiseAllResult]
